import Mathlib

/-!
Verification of the AMQP 1.0 Session multiplexing layer
(`azure/servicebus/_pyamqp/session.py`).

The definitions below are a shallow embedding of `Session`: each Python
method that the claims refer to becomes a pure Lean function from the
session record (plus the relevant frame/delivery data) to the updated
session record together with the list of frames handed to the Connection
for transmission.  Python integers become `Int` (windows and transfer-id
counters may be mutated by arbitrary arithmetic and can go negative),
handles and sizes become `Nat`, payload bytes become `List Nat`, and
fallible paths (uncaught Python exceptions) become `Option`/explicit
result codes.  Collaborator objects (Connection, Link) are external: the
Connection's `_process_outgoing_frame` is modelled by returning the frame
list, the Connection's `_remote_max_frame_size` attribute read by
`_outgoing_transfer` is carried as a session field, and Link callbacks
(which do not touch any Session field) are omitted.
-/

/-- A payload byte (contents are opaque to the session layer). -/
abbrev Byte := Nat

/-- Opaque bag of AMQP fields/properties copied verbatim by the session. -/
abbrev Properties := List (String × String)

/-- `SessionState` from `constants.py`, as used by `session.py`. -/
inductive SessionState
  | UNMAPPED
  | BEGIN_SENT
  | BEGIN_RCVD
  | MAPPED
  | END_SENT
  | END_RCVD
  | DISCARDING
deriving DecidableEq, Repr

/-- `SessionTransferState` from `constants.py`. -/
inductive SessionTransferState
  | OKAY
  | ERROR
  | BUSY
deriving DecidableEq, Repr

/-- The AMQP error conditions used by `session.py`. -/
inductive ErrorCondition
  | SessionUnattachedHandle
  | LinkDetachForced
deriving DecidableEq, Repr

/-- `AMQPError` (condition + description; `info` is never read). -/
structure AMQPError where
  condition : ErrorCondition
  description : String
deriving DecidableEq, Repr

/-- The fields of a `BeginFrame` (indices 0-4 and 7 are read by the session). -/
structure BeginFrameData where
  remote_channel : Option Nat
  next_outgoing_id : Int
  incoming_window : Int
  outgoing_window : Int
  handle_max : Nat
  offered_capabilities : Option (List String)
  desired_capabilities : Option (List String)
  properties : Option Properties
deriving DecidableEq, Repr

/-- The fields of an `EndFrame`. -/
structure EndFrameData where
  error : Option AMQPError
deriving DecidableEq, Repr

/-- The session-level fields of a `FlowFrame` (indices 0-4). -/
structure FlowFrameData where
  next_incoming_id : Option Int
  incoming_window : Int
  next_outgoing_id : Int
  outgoing_window : Int
  handle : Option Nat
deriving DecidableEq, Repr

/-- The fields of a `TransferFrame`. -/
structure TransferFrameData where
  handle : Nat
  delivery_id : Option Int
  delivery_tag : List Byte
  message_format : Option Nat
  settled : Option Bool
  more : Bool
  rcv_settle_mode : Option Nat
  state : Option Nat
  resume : Option Bool
  aborted : Option Bool
  batchable : Option Bool
  payload : List Byte
deriving DecidableEq, Repr

/-- A frame handed to `Connection._process_outgoing_frame`. -/
inductive Frame
  | begin (f : BeginFrameData)
  | endFrame (f : EndFrameData)
  | flow (f : FlowFrameData)
  | transfer (f : TransferFrameData)
deriving DecidableEq, Repr

/-- The dict `delivery.frame` of an outgoing delivery. -/
structure DeliveryFrame where
  handle : Nat
  delivery_tag : List Byte
  message_format : Option Nat
  settled : Option Bool
  rcv_settle_mode : Option Nat
  state : Option Nat
  resume : Option Bool
  aborted : Option Bool
  batchable : Option Bool
  delivery_id : Option Int
  payload : List Byte
deriving DecidableEq, Repr

/-- An outgoing delivery: its frame dict and its `transfer_state` field. -/
structure Delivery where
  frame : DeliveryFrame
  transfer_state : Option SessionTransferState
deriving DecidableEq, Repr

/-- The mutable fields of `Session` that `session.py` reads or writes.
`remote_max_frame_size` mirrors the `self._connection._remote_max_frame_size`
attribute read by `_outgoing_transfer`; `output_handles`/`input_handles`
are the key sets of `_output_handles`/`_input_handles` (the Link values are
external collaborators). -/
structure Session where
  state : SessionState
  handle_max : Nat
  channel : Nat
  remote_channel : Option Nat
  next_outgoing_id : Int
  next_incoming_id : Option Int
  incoming_window : Int
  outgoing_window : Int
  target_incoming_window : Int
  remote_incoming_window : Int
  remote_outgoing_window : Int
  output_handles : Finset Nat
  input_handles : Finset Nat
  remote_max_frame_size : Nat
  offered_capabilities : Option (List String)
  desired_capabilities : Option (List String)
  properties : Option Properties
  remote_properties : Option Properties
deriving DecidableEq

/-- A session as built by `Session.__init__` with the constructor defaults
(`remote_max_frame_size` carries the Connection default of 65536). -/
def initSession : Session where
  state := SessionState.UNMAPPED
  handle_max := 4294967295
  channel := 0
  remote_channel := none
  next_outgoing_id := 0
  next_incoming_id := none
  incoming_window := 1
  outgoing_window := 1
  target_incoming_window := 1
  remote_incoming_window := 0
  remote_outgoing_window := 0
  output_handles := ∅
  input_handles := ∅
  remote_max_frame_size := 65536
  offered_capabilities := none
  desired_capabilities := none
  properties := none
  remote_properties := none

/-- Result of `_get_next_output_handle`: the guard's `ValueError`, the
unguarded `StopIteration` escaping from `next(...)`, or a handle. -/
inductive AllocResult
  | valueError
  | stopIteration
  | ok (handle : Nat)
deriving DecidableEq, Repr

/-- `Session._get_next_output_handle`:
raise `ValueError` when `len(_output_handles) >= handle_max`, otherwise
return `next(i for i in range(1, handle_max) if i not in _output_handles)`
(which raises `StopIteration` when the generator is exhausted). -/
def Session._get_next_output_handle (s : Session) : AllocResult :=
  if s.output_handles.card ≥ s.handle_max then
    AllocResult.valueError
  else
    match (List.range' 1 (s.handle_max - 1)).find?
        (fun i => decide (i ∉ s.output_handles)) with
    | some h => AllocResult.ok h
    | none => AllocResult.stopIteration

/-- `Session.create_sender_link` restricted to its session-visible effect:
allocate a handle and record it in `_output_handles` (the Link object and
the `links` name map are external).  `none` models the allocation raising. -/
def Session.create_sender_link (s : Session) : Option (Session × Nat) :=
  match s._get_next_output_handle with
  | AllocResult.ok h => some ({ s with output_handles := insert h s.output_handles }, h)
  | _ => none

/-- `Session.create_receiver_link`: same session-visible effect as
`create_sender_link`. -/
def Session.create_receiver_link (s : Session) : Option (Session × Nat) :=
  match s._get_next_output_handle with
  | AllocResult.ok h => some ({ s with output_handles := insert h s.output_handles }, h)
  | _ => none

/-- `Session._incoming_detach`: route to the link on a known handle
(link-level effects are external; the removal of table entries is
commented out in the source, so the tables are unchanged), otherwise set
`DISCARDING` and close the connection (external).  The returned flag
records whether the unknown-handle path was taken. -/
def Session._incoming_detach (s : Session) (handle : Nat) : Session × Bool :=
  if handle ∈ s.input_handles then
    (s, false)
  else
    ({ s with state := SessionState.DISCARDING }, true)

/-- `Session._outgoing_begin`: construct the Begin frame from the current
session fields (some fields are only sent in particular states). -/
def Session._outgoing_begin (s : Session) : Frame :=
  Frame.begin
    { remote_channel :=
        if s.state = SessionState.BEGIN_RCVD then s.remote_channel else none
      next_outgoing_id := s.next_outgoing_id
      outgoing_window := s.outgoing_window
      incoming_window := s.incoming_window
      handle_max := s.handle_max
      offered_capabilities :=
        if s.state = SessionState.BEGIN_RCVD then s.offered_capabilities else none
      desired_capabilities :=
        if s.state = SessionState.UNMAPPED then s.desired_capabilities else none
      properties := s.properties }

/-- `Session._incoming_begin`: copy the peer's fields, then either complete
the locally-initiated handshake (`BEGIN_SENT` -> `MAPPED`, recording the
frame's `remote_channel`), or run the peer-initiated handshake
(`UNMAPPED` -> `BEGIN_RCVD`, reply with `_outgoing_begin`, -> `MAPPED`). -/
def Session._incoming_begin (s : Session) (frame : BeginFrameData) :
    Session × List Frame :=
  let s1 : Session :=
    { s with
      handle_max := frame.handle_max
      next_incoming_id := some frame.next_outgoing_id
      remote_incoming_window := frame.incoming_window
      remote_outgoing_window := frame.outgoing_window
      remote_properties := frame.properties }
  if s1.state = SessionState.BEGIN_SENT then
    ({ s1 with
        remote_channel := frame.remote_channel
        state := SessionState.MAPPED }, [])
  else if s1.state = SessionState.UNMAPPED then
    let s2 : Session := { s1 with state := SessionState.BEGIN_RCVD }
    let reply := s2._outgoing_begin
    ({ s2 with state := SessionState.MAPPED }, [reply])
  else
    (s1, [])

/-- `Session.end` with `wait=False` (the name `end` is a Lean keyword).
Send an End frame unless the state is already `UNMAPPED` or `DISCARDING`,
detach all links (external), then move to `DISCARDING` when an error was
supplied and to `END_SENT` otherwise.  `_wait_for_response(False, _)` is a
no-op; the catch-all `except` only matters for link/connection failures,
which are external to this model. -/
def Session.end' (s : Session) (error : Option AMQPError) : Session × List Frame :=
  let frames :=
    if s.state = SessionState.UNMAPPED ∨ s.state = SessionState.DISCARDING then
      ([] : List Frame)
    else
      [Frame.endFrame { error := error }]
  let new_state :=
    if error.isSome then SessionState.DISCARDING else SessionState.END_SENT
  ({ s with state := new_state }, frames)

/-- `Session._outgoing_flow(None)`: a session-level Flow frame built from
the current counters (`handle` unset). -/
def Session._outgoing_flow (s : Session) : Frame :=
  Frame.flow
    { next_incoming_id := s.next_incoming_id
      incoming_window := s.incoming_window
      next_outgoing_id := s.next_outgoing_id
      outgoing_window := s.outgoing_window
      handle := none }

/-- `Session._incoming_flow`: update the session windows, then route.
`remote_incoming_id = frame[0] or self.next_outgoing_id` is Python's `or`:
it substitutes the local `next_outgoing_id` both when the field is absent
(`None`) and when it is `0` (falsy).  The returned flag records whether the
handle-bearing routing raised `KeyError` (an unknown handle); the window
updates precede the raise and stick either way.  The handle-free broadcast
only invokes Link callbacks, which are external. -/
def Session._incoming_flow (s : Session) (frame : FlowFrameData) : Session × Bool :=
  let remote_incoming_id : Int :=
    match frame.next_incoming_id with
    | none => s.next_outgoing_id
    | some v => if v = 0 then s.next_outgoing_id else v
  let s1 : Session :=
    { s with
      next_incoming_id := some frame.next_outgoing_id
      remote_incoming_window :=
        remote_incoming_id + frame.incoming_window - s.next_outgoing_id
      remote_outgoing_window := frame.outgoing_window }
  match frame.handle with
  | some h => (s1, if h ∈ s1.input_handles then false else true)
  | none => (s1, false)

/-- Fuel-indexed form of the fragmentation loop (structural recursion so
that concrete runs reduce inside the kernel); `fragChunks` instantiates
the fuel with the payload length, which always suffices. -/
def fragChunksAux : Nat → List Byte → Nat → List (List Byte)
  | 0, payload, _ => [payload]
  | fuel + 1, payload, C =>
    if 0 < C ∧ C < payload.length then
      payload.take C :: fragChunksAux fuel (payload.drop C) C
    else
      [payload]

/-- The fragment slices produced by the `while remaining_payload_cnt >
available_frame_size` loop of `_outgoing_transfer`, followed by the final
`payload[start_idx:]` slice.  The `0 < C` conjunct in the loop guard is a
termination guard only: every claim about fragmentation assumes a positive
per-frame capacity (with `C = 0` the Python loop would not terminate). -/
def fragChunks (payload : List Byte) (C : Nat) : List (List Byte) :=
  fragChunksAux payload.length payload C

/-- One `TransferFrame(payload=..., **tmp_delivery_frame)` of
`_outgoing_transfer`: every field is copied from the delivery's frame dict
except `more` and the payload slice; `delivery_id` is the value of
`self.next_outgoing_id` when the transfer began. -/
def mkXfer (df : DeliveryFrame) (did : Int) (more : Bool) (payload : List Byte) :
    TransferFrameData :=
  { handle := df.handle
    delivery_id := some did
    delivery_tag := df.delivery_tag
    message_format := df.message_format
    settled := df.settled
    more := more
    rcv_settle_mode := df.rcv_settle_mode
    state := df.state
    resume := df.resume
    aborted := df.aborted
    batchable := df.batchable
    payload := payload }

/-- The Transfer frames emitted for the given fragment slices: `more=True`
on every slice but the last, `more=False` on the last. -/
def mkTransferFrames (df : DeliveryFrame) (did : Int) :
    List (List Byte) → List TransferFrameData
  | [] => []
  | [c] => [mkXfer df did false c]
  | c :: c2 :: rest => mkXfer df did true c :: mkTransferFrames df did (c2 :: rest)

/-- `Session._outgoing_transfer` (every emitted frame is a Transfer, so the
emitted list is typed as such).  `overhead` is `transfer_overhead_size`,
the measured encoding size of the Transfer performative with an empty
payload (the encoder is an external collaborator).  Mirrors the source:
the `ERROR` mark for a non-`MAPPED` state is not followed by a return, so
the window test still decides whether frames are sent. -/
def Session._outgoing_transfer (s : Session) (d : Delivery) (overhead : Nat) :
    Session × Delivery × List TransferFrameData :=
  let d :=
    if s.state ≠ SessionState.MAPPED then
      { d with transfer_state := some SessionTransferState.ERROR }
    else d
  if s.remote_incoming_window ≤ 0 then
    (s, { d with transfer_state := some SessionTransferState.BUSY }, [])
  else
    let payload := d.frame.payload
    let d :=
      { d with
        frame :=
          { d.frame with delivery_id := some s.next_outgoing_id, payload := [] } }
    let available_frame_size : Int :=
      (s.remote_max_frame_size : Int) - (overhead : Int) - 8
    let chunks := fragChunks payload available_frame_size.toNat
    let frames := mkTransferFrames d.frame s.next_outgoing_id chunks
    ( { s with
        next_outgoing_id := s.next_outgoing_id + 1
        remote_incoming_window := s.remote_incoming_window - 1
        outgoing_window := s.outgoing_window - 1 },
      { d with transfer_state := some SessionTransferState.OKAY },
      frames )

/-- `Session._incoming_transfer`.  `none` models the uncaught `TypeError`
of `self.next_incoming_id += 1` when no Begin has set the counter.  On a
known handle the frame is routed to the Link (external) and the
`incoming_window == 0` replenishment check runs; on an unknown handle the
session is set to `DISCARDING` and `end(error=session-unattached-handle)`
is called, then the method returns. -/
def Session._incoming_transfer (s : Session) (frame : TransferFrameData) :
    Option (Session × List Frame) :=
  match s.next_incoming_id with
  | none => none
  | some nid =>
    let s1 : Session :=
      { s with
        next_incoming_id := some (nid + 1)
        remote_outgoing_window := s.remote_outgoing_window - 1
        incoming_window := s.incoming_window - 1 }
    if frame.handle ∈ s1.input_handles then
      if s1.incoming_window = 0 then
        let s2 : Session := { s1 with incoming_window := s1.target_incoming_window }
        some (s2, [s2._outgoing_flow])
      else
        some (s1, [])
    else
      let s2 : Session := { s1 with state := SessionState.DISCARDING }
      let r := s2.end'
        (some
          { condition := ErrorCondition.SessionUnattachedHandle
            description := "Invalid handle reference in received frame: Handle is not currently associated with an attached link" })
      some (r.1, r.2)

/-! ## Lemmas about the fragmentation loop -/

theorem fragChunksAux_ne_nil (fuel : Nat) (p : List Byte) (C : Nat) :
    fragChunksAux fuel p C ≠ [] := by
  cases fuel with
  | zero => simp [fragChunksAux]
  | succ n =>
    simp only [fragChunksAux]
    split <;> simp

theorem fragChunksAux_flatten (C : Nat) (hC : 0 < C) :
    ∀ (fuel : Nat) (p : List Byte), p.length ≤ fuel →
      (fragChunksAux fuel p C).flatten = p := by
  intro fuel
  induction fuel with
  | zero =>
    intro p hp
    simp [fragChunksAux]
  | succ n ih =>
    intro p hp
    simp only [fragChunksAux]
    split
    case isTrue h =>
      rw [List.flatten_cons, ih (p.drop C) (by simp only [List.length_drop]; omega)]
      exact List.take_append_drop C p
    case isFalse h => simp

theorem fragChunksAux_length (C : Nat) (hC : 0 < C) :
    ∀ (fuel : Nat) (p : List Byte), p.length ≤ fuel →
      (fragChunksAux fuel p C).length = max 1 ((p.length + C - 1) / C) := by
  intro fuel
  induction fuel with
  | zero =>
    intro p hp
    have hp0 : p.length = 0 := by omega
    simp only [fragChunksAux, List.length_cons, List.length_nil, hp0]
    rw [Nat.div_eq_of_lt (by omega)]
    omega
  | succ n ih =>
    intro p hp
    simp only [fragChunksAux]
    split
    case isTrue h =>
      simp only [List.length_cons]
      rw [ih (p.drop C) (by simp only [List.length_drop]; omega)]
      simp only [List.length_drop]
      have h1 : p.length - C + C - 1 = p.length - 1 := by omega
      have h2 : p.length + C - 1 = (p.length - 1) + C := by omega
      rw [h1, h2, Nat.add_div_right _ hC]
      have h3 : 1 ≤ (p.length - 1) / C := (Nat.le_div_iff_mul_le hC).mpr (by omega)
      generalize (p.length - 1) / C = e at h3 ⊢
      omega
    case isFalse h =>
      simp only [List.length_cons, List.length_nil]
      have hlen : p.length ≤ C := by omega
      have h4 : (p.length + C - 1) / C < 2 := (Nat.div_lt_iff_lt_mul hC).mpr (by omega)
      generalize (p.length + C - 1) / C = e at h4 ⊢
      omega

theorem fragChunks_ne_nil (p : List Byte) (C : Nat) : fragChunks p C ≠ [] :=
  fragChunksAux_ne_nil p.length p C

theorem fragChunks_flatten (p : List Byte) (C : Nat) (hC : 0 < C) :
    (fragChunks p C).flatten = p :=
  fragChunksAux_flatten C hC p.length p (Nat.le_refl _)

theorem fragChunks_length (p : List Byte) (C : Nat) (hC : 0 < C) :
    (fragChunks p C).length = max 1 ((p.length + C - 1) / C) :=
  fragChunksAux_length C hC p.length p (Nat.le_refl _)

/-! ## Lemmas about the emitted Transfer frames -/

theorem mkTransferFrames_length (df : DeliveryFrame) (did : Int) :
    ∀ chunks : List (List Byte),
      (mkTransferFrames df did chunks).length = chunks.length
  | [] => rfl
  | [_] => rfl
  | c :: c2 :: rest => by
    simp only [mkTransferFrames, List.length_cons]
    rw [mkTransferFrames_length df did (c2 :: rest)]
    simp

theorem mkTransferFrames_delivery_id (df : DeliveryFrame) (did : Int) :
    ∀ chunks : List (List Byte),
      ∀ f ∈ mkTransferFrames df did chunks, f.delivery_id = some did
  | [], f, hf => by simp [mkTransferFrames] at hf
  | [c], f, hf => by
    simp only [mkTransferFrames, List.mem_singleton] at hf
    subst hf; rfl
  | c :: c2 :: rest, f, hf => by
    simp only [mkTransferFrames, List.mem_cons] at hf
    rcases hf with hf | hf
    · subst hf; rfl
    · exact mkTransferFrames_delivery_id df did (c2 :: rest) f (by simpa using hf)

theorem mkTransferFrames_payload (df : DeliveryFrame) (did : Int) :
    ∀ chunks : List (List Byte),
      (mkTransferFrames df did chunks).map TransferFrameData.payload = chunks
  | [] => rfl
  | [_] => rfl
  | c :: c2 :: rest => by
    simp only [mkTransferFrames, List.map_cons]
    rw [mkTransferFrames_payload df did (c2 :: rest)]
    rfl

theorem mkTransferFrames_more (df : DeliveryFrame) (did : Int) :
    ∀ chunks : List (List Byte), chunks ≠ [] →
      (mkTransferFrames df did chunks).map TransferFrameData.more
        = List.replicate (chunks.length - 1) true ++ [false]
  | [], h => absurd rfl h
  | [c], _ => rfl
  | c :: c2 :: rest, _ => by
    simp only [mkTransferFrames, List.map_cons]
    rw [mkTransferFrames_more df did (c2 :: rest) (by simp)]
    simp only [List.length_cons, Nat.add_sub_cancel]
    rw [List.replicate_succ]
    rfl

/-- In the `MAPPED`/window-open path, `_outgoing_transfer` computed in
closed form: the emitted frames are `mkTransferFrames` over the fragment
slices and the three counters advance once. -/
theorem outgoing_transfer_eq (s : Session) (d : Delivery) (overhead C : Nat)
    (hstate : s.state = SessionState.MAPPED)
    (hwin : 0 < s.remote_incoming_window)
    (hC : C + overhead + 8 = s.remote_max_frame_size) :
    s._outgoing_transfer d overhead =
      ({ s with
          next_outgoing_id := s.next_outgoing_id + 1
          remote_incoming_window := s.remote_incoming_window - 1
          outgoing_window := s.outgoing_window - 1 },
       { frame :=
           { d.frame with delivery_id := some s.next_outgoing_id, payload := [] }
         transfer_state := some SessionTransferState.OKAY },
       mkTransferFrames
         { d.frame with delivery_id := some s.next_outgoing_id, payload := [] }
         s.next_outgoing_id (fragChunks d.frame.payload C)) := by
  have hwin' : ¬ s.remote_incoming_window ≤ 0 := by omega
  have havail : ((s.remote_max_frame_size : Int) - (overhead : Int) - 8).toNat = C := by
    omega
  rw [Session._outgoing_transfer]
  simp only [hstate, ne_eq, not_true_eq_false, if_false, hwin', havail]

/-- C1 counterexample: the claim asserts (for any capacity C > 0) that a
payload of size C*3+10 yields exactly 4 frames, but with capacity
C = 20 - 9 - 8 = 3 a payload of 3*3+10 = 19 bytes yields
ceil(19/3) = 7 Transfer frames, not 4. -/
theorem outgoing_transfer_four_frame_counterexample :
    (({ initSession with
          state := SessionState.MAPPED
          remote_incoming_window := 1
          remote_max_frame_size := 20 } : Session)._outgoing_transfer
        { frame :=
            { handle := 0, delivery_tag := [], message_format := none,
              settled := none, rcv_settle_mode := none, state := none,
              resume := none, aborted := none, batchable := none,
              delivery_id := none, payload := List.replicate 19 1 }
          transfer_state := none } 9).2.2.length = 7 ∧ (7 : Nat) ≠ 4 := by
  decide

/-- C1 (amended): for a delivery sent while the state is `MAPPED` and
`remote_incoming_window > 0`, with payload size `S` and per-frame capacity
`C = remote_max_frame_size - transfer_overhead_size - 8 > 0`,
`_outgoing_transfer` emits exactly `max 1 ⌈S/C⌉` Transfer frames, every
frame but the last with `more=True` and the last with `more=False`, all
carrying `delivery_id = next_outgoing_id` as of the start of the transfer;
the concatenation of the frames' payloads is the original payload; the
delivery ends `OKAY`; and `next_outgoing_id`, `remote_incoming_window`
and `outgoing_window` each move by exactly one for the whole delivery.
When additionally `C ≥ 10`, a payload of size `C*3+10` yields exactly 4
frames. -/
theorem outgoing_transfer_fragmentation
    (s : Session) (d : Delivery) (overhead C : Nat)
    (hstate : s.state = SessionState.MAPPED)
    (hwin : 0 < s.remote_incoming_window)
    (hC : C + overhead + 8 = s.remote_max_frame_size)
    (hCpos : 0 < C) :
    (s._outgoing_transfer d overhead).2.2.length
        = max 1 ((d.frame.payload.length + C - 1) / C) ∧
    (s._outgoing_transfer d overhead).2.2.map TransferFrameData.more
        = List.replicate ((s._outgoing_transfer d overhead).2.2.length - 1) true
            ++ [false] ∧
    (∀ f ∈ (s._outgoing_transfer d overhead).2.2,
        f.delivery_id = some s.next_outgoing_id) ∧
    ((s._outgoing_transfer d overhead).2.2.map TransferFrameData.payload).flatten
        = d.frame.payload ∧
    (s._outgoing_transfer d overhead).2.1.transfer_state
        = some SessionTransferState.OKAY ∧
    (s._outgoing_transfer d overhead).1.next_outgoing_id
        = s.next_outgoing_id + 1 ∧
    (s._outgoing_transfer d overhead).1.remote_incoming_window
        = s.remote_incoming_window - 1 ∧
    (s._outgoing_transfer d overhead).1.outgoing_window
        = s.outgoing_window - 1 ∧
    (10 ≤ C → d.frame.payload.length = 3 * C + 10 →
        (s._outgoing_transfer d overhead).2.2.length = 4) := by
  rw [outgoing_transfer_eq s d overhead C hstate hwin hC]
  refine ⟨?_, ?_, ?_, ?_, rfl, rfl, rfl, rfl, ?_⟩
  · rw [mkTransferFrames_length, fragChunks_length _ _ hCpos]
  · rw [mkTransferFrames_more _ _ _ (fragChunks_ne_nil _ _), mkTransferFrames_length]
  · intro f hf
    exact mkTransferFrames_delivery_id _ _ _ f hf
  · rw [mkTransferFrames_payload, fragChunks_flatten _ _ hCpos]
  · intro h10 hS
    rw [mkTransferFrames_length, fragChunks_length _ _ hCpos, hS]
    have h1 : 3 * C + 10 + C - 1 = 9 + C * 4 := by omega
    rw [h1, Nat.add_mul_div_left _ _ hCpos, Nat.div_eq_of_lt (by omega)]
    rfl

/-- The session and delivery used to witness C1: capacity
C = 30 - 12 - 8 = 10 and a 40 = 3*10+10 byte payload. -/
def wSessC1 : Session :=
  { initSession with
      state := SessionState.MAPPED
      remote_incoming_window := 1
      remote_max_frame_size := 30 }

/-- A concrete delivery with a 40-byte payload. -/
def wDelivC1 : Delivery :=
  { frame :=
      { handle := 0, delivery_tag := [1], message_format := some 0,
        settled := some false, rcv_settle_mode := none, state := none,
        resume := none, aborted := none, batchable := some true,
        delivery_id := none, payload := List.replicate 40 7 }
    transfer_state := none }

/-- Witness for C1 at capacity 10 and payload size 40: the hypotheses hold
and the transfer emits exactly 4 frames whose payloads reassemble the
original payload. -/
theorem outgoing_transfer_fragmentation_witness :
    (wSessC1.state = SessionState.MAPPED ∧
      0 < wSessC1.remote_incoming_window ∧
      10 + 12 + 8 = wSessC1.remote_max_frame_size ∧
      0 < (10 : Nat) ∧ 10 ≤ (10 : Nat) ∧
      wDelivC1.frame.payload.length = 3 * 10 + 10) ∧
    (wSessC1._outgoing_transfer wDelivC1 12).2.2.length = 4 ∧
    ((wSessC1._outgoing_transfer wDelivC1 12).2.2.map
        TransferFrameData.payload).flatten = wDelivC1.frame.payload := by
  have h := outgoing_transfer_fragmentation wSessC1 wDelivC1 12 10 rfl
    (by decide) (by decide) (by decide)
  exact ⟨⟨rfl, by decide, by decide, by decide, by decide, by decide⟩,
    h.2.2.2.2.2.2.2.2 (by decide) (by decide), h.2.2.2.1⟩

/-- A minimal concrete delivery used by several evaluations. -/
def anyDelivery : Delivery :=
  { frame :=
      { handle := 0, delivery_tag := [], message_format := none,
        settled := none, rcv_settle_mode := none, state := none,
        resume := none, aborted := none, batchable := none,
        delivery_id := none, payload := [0] }
    transfer_state := none }

/-- C2 evaluation at the failing input: a `MAPPED` session with an empty
input-handle table receives a Transfer with handle 99.  The state becomes
`DISCARDING` but zero frames are emitted: `_set_state(DISCARDING)` runs
before `end()`, whose `state not in [UNMAPPED, DISCARDING]` guard then
suppresses `_outgoing_end`, so the constructed session-unattached-handle
End frame is never sent. -/
theorem incoming_transfer_unknown_handle_no_end_frame :
    (({ initSession with
          state := SessionState.MAPPED
          next_incoming_id := some 0
          incoming_window := 5
          remote_outgoing_window := 5 } : Session)._incoming_transfer
        { handle := 99, delivery_id := some 0, delivery_tag := [],
          message_format := none, settled := none, more := false,
          rcv_settle_mode := none, state := none, resume := none,
          aborted := none, batchable := none, payload := [] }).map
      (fun r => (r.1.state, r.2.length)) = some (SessionState.DISCARDING, 0) := by
  decide

/-- C6 evaluation at the failing input: a session in `END_SENT` (not
`MAPPED`) with `remote_incoming_window = 1`.  The `ERROR` mark is
overwritten: the transfer is still emitted, the delivery ends `OKAY`, and
the counters advance, because the non-`MAPPED` check is not followed by a
return and the window test alone selects the send path. -/
theorem outgoing_transfer_not_mapped_still_sends :
    (({ initSession with
          state := SessionState.END_SENT
          remote_incoming_window := 1
          remote_max_frame_size := 100 } : Session)._outgoing_transfer
        anyDelivery 10).2.2.length = 1 ∧
    (({ initSession with
          state := SessionState.END_SENT
          remote_incoming_window := 1
          remote_max_frame_size := 100 } : Session)._outgoing_transfer
        anyDelivery 10).2.1.transfer_state = some SessionTransferState.OKAY ∧
    (({ initSession with
          state := SessionState.END_SENT
          remote_incoming_window := 1
          remote_max_frame_size := 100 } : Session)._outgoing_transfer
        anyDelivery 10).1.next_outgoing_id = 1 := by
  decide

/-- C3 counterexample: `remote_incoming_window` can become negative. A
session whose `next_outgoing_id` is 5 processes an inbound Flow advertising
`next_incoming_id = 1` and `incoming_window = 0`; the recomputation
`1 + 0 - 5` leaves `remote_incoming_window = -4 < 0`. -/
theorem incoming_flow_negative_window_counterexample :
    (({ initSession with next_outgoing_id := 5 } : Session)._incoming_flow
        { next_incoming_id := some 1, incoming_window := 0,
          next_outgoing_id := 7, outgoing_window := 0,
          handle := none }).1.remote_incoming_window = -4 ∧
    (-4 : Int) < 0 := by
  decide

/-- The session returned by the window-open branch of `_outgoing_transfer`
(independently of the session state and the frame capacity). -/
theorem outgoing_transfer_fst (s : Session) (d : Delivery) (overhead : Nat)
    (hwin : ¬ s.remote_incoming_window ≤ 0) :
    (s._outgoing_transfer d overhead).1 =
      { s with
          next_outgoing_id := s.next_outgoing_id + 1
          remote_incoming_window := s.remote_incoming_window - 1
          outgoing_window := s.outgoing_window - 1 } := by
  simp only [Session._outgoing_transfer, if_neg hwin]

/-- C3 (amended): `_outgoing_transfer` never drives `remote_incoming_window`
negative: a call made while `remote_incoming_window ≤ 0` sets the
delivery's `transfer_state` to `BUSY`, emits no frame and leaves the
session (in particular `next_outgoing_id`, `remote_incoming_window` and
`outgoing_window`) unchanged, and every call preserves
`remote_incoming_window ≥ 0`.  (An inbound Flow from a peer advertising
inconsistent values can, however, set the window negative directly.) -/
theorem outgoing_transfer_window_safety
    (s : Session) (d : Delivery) (overhead : Nat) :
    (s.remote_incoming_window ≤ 0 →
      (s._outgoing_transfer d overhead).2.1.transfer_state
          = some SessionTransferState.BUSY ∧
      (s._outgoing_transfer d overhead).2.2 = [] ∧
      (s._outgoing_transfer d overhead).1 = s) ∧
    (0 ≤ s.remote_incoming_window →
      0 ≤ (s._outgoing_transfer d overhead).1.remote_incoming_window) := by
  constructor
  · intro hwin
    simp only [Session._outgoing_transfer, if_pos hwin]
    exact ⟨trivial, trivial, trivial⟩
  · intro h0
    by_cases hwin : s.remote_incoming_window ≤ 0
    · simp only [Session._outgoing_transfer, if_pos hwin]
      exact h0
    · rw [outgoing_transfer_fst s d overhead hwin]
      simp only []
      omega

/-- Witness for C3 at a concrete session with `remote_incoming_window = 0`:
both hypotheses hold there, the call returns `BUSY` with no frames and an
unchanged session, and the window stays non-negative. -/
theorem outgoing_transfer_window_safety_witness :
    (initSession.remote_incoming_window ≤ 0 ∧
      0 ≤ initSession.remote_incoming_window) ∧
    ((initSession._outgoing_transfer anyDelivery 5).2.1.transfer_state
        = some SessionTransferState.BUSY ∧
      (initSession._outgoing_transfer anyDelivery 5).2.2 = [] ∧
      (initSession._outgoing_transfer anyDelivery 5).1 = initSession) ∧
    0 ≤ (initSession._outgoing_transfer anyDelivery 5).1.remote_incoming_window := by
  have h := outgoing_transfer_window_safety initSession anyDelivery 5
  exact ⟨⟨by decide, by decide⟩, h.1 (by decide), h.2 (by decide)⟩

/-- C4: on every inbound Transfer routed to a known handle,
`_incoming_transfer` increments `next_incoming_id` by one, decrements
`remote_outgoing_window` by one and decrements `incoming_window` by one;
when `incoming_window` thereby reaches exactly 0 it is reset to
`target_incoming_window` and exactly one outgoing Flow frame (built from
the replenished counters) is emitted, otherwise no frame is emitted. -/
theorem incoming_transfer_known_handle
    (s : Session) (f : TransferFrameData) (nid : Int)
    (hn : s.next_incoming_id = some nid)
    (hh : f.handle ∈ s.input_handles) :
    ∃ s' frames, s._incoming_transfer f = some (s', frames) ∧
      s'.next_incoming_id = some (nid + 1) ∧
      s'.remote_outgoing_window = s.remote_outgoing_window - 1 ∧
      (s.incoming_window - 1 = 0 →
        s'.incoming_window = s.target_incoming_window ∧
        frames = [Frame.flow
          { next_incoming_id := some (nid + 1)
            incoming_window := s.target_incoming_window
            next_outgoing_id := s.next_outgoing_id
            outgoing_window := s.outgoing_window
            handle := none }]) ∧
      (¬ s.incoming_window - 1 = 0 →
        s'.incoming_window = s.incoming_window - 1 ∧ frames = []) := by
  simp only [Session._incoming_transfer, hn]
  rw [if_pos hh]
  by_cases hw : s.incoming_window - 1 = 0
  · rw [if_pos hw]
    exact ⟨_, _, rfl, rfl, rfl, fun _ => ⟨rfl, rfl⟩, fun h => absurd hw h⟩
  · rw [if_neg hw]
    exact ⟨_, _, rfl, rfl, rfl, fun h => absurd h hw, fun _ => ⟨rfl, rfl⟩⟩

/-- The session used to witness C4: `incoming_window = 1`, handle 5
attached. -/
def wSessC4 : Session :=
  { initSession with
      state := SessionState.MAPPED
      next_incoming_id := some 3
      incoming_window := 1
      target_incoming_window := 1
      input_handles := {5} }

/-- A concrete inbound Transfer frame on handle 5. -/
def wXferC4 : TransferFrameData :=
  { handle := 5, delivery_id := some 0, delivery_tag := [2],
    message_format := none, settled := none, more := false,
    rcv_settle_mode := none, state := none, resume := none,
    aborted := none, batchable := none, payload := [9] }

/-- Witness for C4: with `incoming_window = 1`, one Transfer on a known
handle decrements the counters, resets `incoming_window` to
`target_incoming_window` and emits exactly one Flow frame. -/
theorem incoming_transfer_known_handle_witness :
    (wSessC4.next_incoming_id = some 3 ∧ wXferC4.handle ∈ wSessC4.input_handles) ∧
    (∃ s' frames, wSessC4._incoming_transfer wXferC4 = some (s', frames) ∧
      s'.next_incoming_id = some (3 + 1) ∧
      s'.remote_outgoing_window = wSessC4.remote_outgoing_window - 1 ∧
      (wSessC4.incoming_window - 1 = 0 →
        s'.incoming_window = wSessC4.target_incoming_window ∧
        frames = [Frame.flow
          { next_incoming_id := some (3 + 1)
            incoming_window := wSessC4.target_incoming_window
            next_outgoing_id := wSessC4.next_outgoing_id
            outgoing_window := wSessC4.outgoing_window
            handle := none }]) ∧
      (¬ wSessC4.incoming_window - 1 = 0 →
        s'.incoming_window = wSessC4.incoming_window - 1 ∧ frames = [])) :=
  ⟨⟨by decide, by decide⟩,
    incoming_transfer_known_handle wSessC4 wXferC4 3 (by decide) (by decide)⟩

/-- `find?` over a contiguous range returns exactly the least element of
the range satisfying the predicate. -/
theorem range_find_least (p : Nat → Bool) :
    ∀ (len start m : Nat), start ≤ m → m < start + len → p m = true →
      (∀ j, start ≤ j → j < m → p j = false) →
      (List.range' start len).find? p = some m := by
  intro len
  induction len with
  | zero =>
    intro start m h1 h2 _ _
    omega
  | succ n ih =>
    intro start m h1 h2 hpm hbelow
    rw [List.range'_succ start n 1]
    by_cases he : m = start
    · subst he
      rw [List.find?_cons_of_pos _ hpm]
    · have hstart : p start = false :=
        hbelow start (Nat.le_refl _) (by omega)
      rw [List.find?_cons_of_neg _ (by simp [hstart])]
      exact ih (start + 1) m (by omega) (by omega) hpm
        (fun j hj1 hj2 => hbelow j (by omega) hj2)

/-- Iterated `create_sender_link`, to reach concrete handle-table states. -/
def allocTimes : Session → Nat → Option Session
  | s, 0 => some s
  | s, n + 1 => s.create_sender_link.bind fun r => allocTimes r.1 n

/-- C5 counterexample: the scan starts at 1, so on an empty handle table
`_get_next_output_handle` returns handle 1 even though 0 is the smallest
unused integer of [0, handle_max); and after attaching three links
(handles 1,2,3) and detaching the second, a fresh attach receives handle 4
rather than reusing 2, because `_incoming_detach` leaves the handle in the
table (the removal is commented out in the source). -/
theorem get_next_output_handle_counterexample :
    ({ initSession with handle_max := 10 } : Session)._get_next_output_handle
        = AllocResult.ok 1 ∧
    (0 : Nat) ∉ ({ initSession with handle_max := 10 } : Session).output_handles ∧
    (allocTimes
        { initSession with handle_max := 10, input_handles := {1, 2, 3} } 3).map
        (fun s => (s._incoming_detach 2).1._get_next_output_handle)
      = some (AllocResult.ok 4) := by
  decide

/-- C5 (amended): when the table has fewer than `handle_max` entries and
some integer in [1, handle_max) is unused, `_get_next_output_handle`
returns the smallest unused integer of [1, handle_max) (not of
[0, handle_max): handle 0 is never produced); detaching a link does not
free its handle, so the post-detach attach receives a fresh handle rather
than the detached link's number. -/
theorem get_next_output_handle_least_unused
    (s : Session) (m : Nat)
    (hcard : s.output_handles.card < s.handle_max)
    (hm1 : 1 ≤ m) (hm2 : m < s.handle_max)
    (hfree : m ∉ s.output_handles)
    (hleast : ∀ j, 1 ≤ j → j < m → j ∈ s.output_handles) :
    s._get_next_output_handle = AllocResult.ok m := by
  rw [Session._get_next_output_handle, if_neg (by omega)]
  rw [range_find_least _ (s.handle_max - 1) 1 m hm1 (by omega)
        (by simpa using hfree)
        (fun j hj1 hj2 => by simpa using hleast j hj1 hj2)]

/-- The session used to witness C5: handles 1 and 3 taken, 2 free. -/
def wSessC5 : Session :=
  { initSession with handle_max := 10, output_handles := {1, 3} }

/-- Witness for C5: on `wSessC5` the hypotheses hold with m = 2 and the
allocator returns handle 2, the smallest unused handle in [1, 10). -/
theorem get_next_output_handle_least_unused_witness :
    (wSessC5.output_handles.card < wSessC5.handle_max ∧
      1 ≤ 2 ∧ 2 < wSessC5.handle_max ∧ (2 : Nat) ∉ wSessC5.output_handles) ∧
    wSessC5._get_next_output_handle = AllocResult.ok 2 :=
  ⟨⟨by decide, by decide, by decide, by decide⟩,
    get_next_output_handle_least_unused wSessC5 2
      (by decide) (by decide) (by decide) (by decide)
      (fun j hj1 hj2 => by
        have hj : j = 1 := by omega
        subst hj
        decide)⟩

/-- C10: from a fresh session with `handle_max = 4`, three
`create_sender_link` calls succeed and fill the whole scan range with
handles {1, 2, 3}; the next allocation then raises `StopIteration` from
`next()` (the generator over `range(1, handle_max)` is exhausted) instead
of the documented `ValueError`, because the guard only fires when
`len(_output_handles) >= handle_max` and the table holds handle_max - 1
entries. -/
theorem handle_exhaustion_stop_iteration :
    (allocTimes { initSession with handle_max := 4 } 3).map
        (fun s => (s._get_next_output_handle, s.output_handles.card,
          decide (1 ∈ s.output_handles), decide (2 ∈ s.output_handles),
          decide (3 ∈ s.output_handles)))
      = some (AllocResult.stopIteration, 3, true, true, true) ∧
    AllocResult.stopIteration ≠ AllocResult.valueError := by
  decide

/-- The window recomputation exactly as the claim words it: the local
`next_outgoing_id` is substituted only when the peer omits
`next_incoming_id`. -/
def claimRemoteIncomingWindow (localNextOutgoingId : Int)
    (peerNextIncomingId : Option Int) (peerIncomingWindow : Int) : Int :=
  peerNextIncomingId.getD localNextOutgoingId
    + peerIncomingWindow - localNextOutgoingId

/-- The window recomputation as the code performs it: Python's
`frame[0] or self.next_outgoing_id` also substitutes the local
`next_outgoing_id` when the peer advertises the value 0 (falsiness). -/
def amendedRemoteIncomingWindow (localNextOutgoingId : Int)
    (peerNextIncomingId : Option Int) (peerIncomingWindow : Int) : Int :=
  (match peerNextIncomingId with
    | none => localNextOutgoingId
    | some v => if v = 0 then localNextOutgoingId else v)
    + peerIncomingWindow - localNextOutgoingId

/-- C7 counterexample: a peer Flow that advertises `next_incoming_id = 0`
(present, not omitted) while the local `next_outgoing_id` is 3 and the
peer's `incoming_window` is 5: the code substitutes the local value and
computes 3 + 5 - 3 = 5, whereas the claim's formula gives 0 + 5 - 3 = 2. -/
theorem incoming_flow_zero_substitution_counterexample :
    (({ initSession with next_outgoing_id := 3 } : Session)._incoming_flow
        { next_incoming_id := some 0, incoming_window := 5,
          next_outgoing_id := 9, outgoing_window := 2,
          handle := none }).1.remote_incoming_window = 5 ∧
    claimRemoteIncomingWindow 3 (some 0) 5 = 2 ∧
    (5 : Int) ≠ 2 := by
  decide

/-- C7 (amended): on every inbound Flow, `_incoming_flow` sets
`next_incoming_id` to the peer's advertised `next_outgoing_id`, sets
`remote_incoming_window` to (the peer's `next_incoming_id`, or the local
`next_outgoing_id` when the peer omits the field OR advertises 0) plus the
peer's `incoming_window` minus the local `next_outgoing_id`, and sets
`remote_outgoing_window` to the peer's advertised `outgoing_window`. -/
theorem incoming_flow_window_update (s : Session) (f : FlowFrameData) :
    (s._incoming_flow f).1.next_incoming_id = some f.next_outgoing_id ∧
    (s._incoming_flow f).1.remote_incoming_window
        = amendedRemoteIncomingWindow s.next_outgoing_id f.next_incoming_id
            f.incoming_window ∧
    (s._incoming_flow f).1.remote_outgoing_window = f.outgoing_window := by
  rcases f with ⟨nid, iw, noid, ow, h⟩
  cases h with
  | none => exact ⟨rfl, rfl, rfl⟩
  | some hh => exact ⟨rfl, rfl, rfl⟩

/-- The peer Begin frame used for the C8 counterexample and witness. -/
def wBeginC8 : BeginFrameData :=
  { remote_channel := some 7, next_outgoing_id := 11, incoming_window := 4,
    outgoing_window := 6, handle_max := 99, offered_capabilities := none,
    desired_capabilities := none, properties := none }

/-- C8 counterexample: a session in `UNMAPPED` (peer-initiated order)
processes an inbound Begin whose `remote_channel` field is 7; the session
ends `MAPPED` but its `remote_channel` is still `None` — `_incoming_begin`
only records the frame's `remote_channel` in the `BEGIN_SENT` branch, so
the two arrival orders do not produce the same `remote_channel`. -/
theorem incoming_begin_remote_channel_counterexample :
    (initSession._incoming_begin wBeginC8).1.state = SessionState.MAPPED ∧
    (initSession._incoming_begin wBeginC8).1.remote_channel = none ∧
    wBeginC8.remote_channel = some 7 ∧
    (none : Option Nat) ≠ some 7 := by
  decide

/-- C8 (amended): in the peer-initiated order (`UNMAPPED`), processing an
inbound Begin passes through `BEGIN_RCVD`, sends exactly one reply Begin
frame and ends `MAPPED`, with `next_incoming_id` taken from the peer's
`next_outgoing_id` but `remote_channel` left unchanged; in the
locally-initiated order (`BEGIN_SENT`), processing the inbound Begin sends
nothing, ends `MAPPED`, takes `next_incoming_id` from the peer's
`next_outgoing_id` and records the frame's `remote_channel`. -/
theorem incoming_begin_handshake (s : Session) (f : BeginFrameData) :
    (s.state = SessionState.UNMAPPED →
      (s._incoming_begin f).1.state = SessionState.MAPPED ∧
      (s._incoming_begin f).2.length = 1 ∧
      (∃ bf, (s._incoming_begin f).2 = [Frame.begin bf]) ∧
      (s._incoming_begin f).1.next_incoming_id = some f.next_outgoing_id ∧
      (s._incoming_begin f).1.remote_channel = s.remote_channel) ∧
    (s.state = SessionState.BEGIN_SENT →
      (s._incoming_begin f).1.state = SessionState.MAPPED ∧
      (s._incoming_begin f).2 = [] ∧
      (s._incoming_begin f).1.next_incoming_id = some f.next_outgoing_id ∧
      (s._incoming_begin f).1.remote_channel = f.remote_channel) := by
  constructor
  · intro hU
    have h1 : s._incoming_begin f =
        ({ s with
            handle_max := f.handle_max
            next_incoming_id := some f.next_outgoing_id
            remote_incoming_window := f.incoming_window
            remote_outgoing_window := f.outgoing_window
            remote_properties := f.properties
            state := SessionState.MAPPED },
         [({ s with
              handle_max := f.handle_max
              next_incoming_id := some f.next_outgoing_id
              remote_incoming_window := f.incoming_window
              remote_outgoing_window := f.outgoing_window
              remote_properties := f.properties
              state := SessionState.BEGIN_RCVD } : Session)._outgoing_begin]) := by
      rw [Session._incoming_begin]
      rw [if_neg (by simp [hU]), if_pos (by simp [hU])]
    rw [h1]
    exact ⟨rfl, rfl, ⟨_, rfl⟩, rfl, rfl⟩
  · intro hB
    have h1 : s._incoming_begin f =
        ({ s with
            handle_max := f.handle_max
            next_incoming_id := some f.next_outgoing_id
            remote_incoming_window := f.incoming_window
            remote_outgoing_window := f.outgoing_window
            remote_properties := f.properties
            remote_channel := f.remote_channel
            state := SessionState.MAPPED },
         []) := by
      rw [Session._incoming_begin]
      rw [if_pos (by simp [hB])]
    rw [h1]
    exact ⟨rfl, rfl, rfl, rfl⟩

/-- Witness for C8: both handshake orders at concrete sessions — the
peer-initiated order emits one reply Begin and leaves `remote_channel`
unchanged; the locally-initiated order records `remote_channel = 7` from
the frame.  Both end `MAPPED` with `next_incoming_id = 11`. -/
theorem incoming_begin_handshake_witness :
    (initSession.state = SessionState.UNMAPPED ∧
      ({ initSession with state := SessionState.BEGIN_SENT } : Session).state
        = SessionState.BEGIN_SENT) ∧
    ((initSession._incoming_begin wBeginC8).1.state = SessionState.MAPPED ∧
      (initSession._incoming_begin wBeginC8).2.length = 1 ∧
      (∃ bf, (initSession._incoming_begin wBeginC8).2 = [Frame.begin bf]) ∧
      (initSession._incoming_begin wBeginC8).1.next_incoming_id
        = some wBeginC8.next_outgoing_id ∧
      (initSession._incoming_begin wBeginC8).1.remote_channel
        = initSession.remote_channel) ∧
    ((({ initSession with state := SessionState.BEGIN_SENT } : Session
        )._incoming_begin wBeginC8).1.state = SessionState.MAPPED ∧
      (({ initSession with state := SessionState.BEGIN_SENT } : Session
        )._incoming_begin wBeginC8).2 = [] ∧
      (({ initSession with state := SessionState.BEGIN_SENT } : Session
        )._incoming_begin wBeginC8).1.next_incoming_id
        = some wBeginC8.next_outgoing_id ∧
      (({ initSession with state := SessionState.BEGIN_SENT } : Session
        )._incoming_begin wBeginC8).1.remote_channel
        = wBeginC8.remote_channel) :=
  ⟨⟨rfl, rfl⟩,
    (incoming_begin_handshake initSession wBeginC8).1 rfl,
    (incoming_begin_handshake
      { initSession with state := SessionState.BEGIN_SENT } wBeginC8).2 rfl⟩

/-- C9 counterexample: a `MAPPED` session with no links; the first `end()`
sends one End frame and leaves the session `END_SENT`; calling `end()`
again sends a second End frame, because the guard only suppresses the
frame in `UNMAPPED` and `DISCARDING` — two End frames in total, not at
most one. -/
theorem end_twice_two_end_frames :
    ((({ initSession with state := SessionState.MAPPED } : Session).end'
        none).2.length = 1) ∧
    ((({ initSession with state := SessionState.MAPPED } : Session).end'
        none).1.state = SessionState.END_SENT) ∧
    (((({ initSession with state := SessionState.MAPPED } : Session).end'
        none).1.end' none).2.length = 1) := by
  decide

/-- C9 (amended): calling `end()` twice never raises (the whole body is
wrapped in a catch-all except); but a second End frame IS sent whenever
the first call supplied no error, because that call leaves the session in
`END_SENT`, which the guard does not suppress.  Only a first call that
supplied an error (leaving `DISCARDING`) makes the second call send
nothing. -/
theorem end_second_call (s : Session) (e1 : AMQPError) (e2 : Option AMQPError) :
    (s.end' (some e1)).1.state = SessionState.DISCARDING ∧
    ((s.end' (some e1)).1.end' e2).2 = [] ∧
    (s.end' none).1.state = SessionState.END_SENT ∧
    ((s.end' none).1.end' e2).2 = [Frame.endFrame { error := e2 }] :=
  ⟨rfl, rfl, rfl, rfl⟩
